import Mathlib

/-!
Verification development for the q3DMASC classifier core
(`q3DMASCClassifier.cpp`): a shallow embedding of the feature-to-matrix
pipeline, the random-trees classifier wrapper (train / evaluate / save /
load / isValid) and its accuracy metrics, together with theorems settling
the specified properties.

Modelling conventions:
- machine floats (ScalarType, CV_32FC1 cells, predictions) are modelled as
  exact rationals; the single place where a NaN can arise (the accuracy
  ratio 0/0) is modelled explicitly with an `Option` (none = NaN);
- C++ pointers to clouds are modelled as identifiers resolved through an
  environment, so pointer comparison becomes identifier comparison;
- the external OpenCV random-trees library is opaque: its model is an
  abstract record with an isTrained flag and a per-row prediction
  function, and the outcome of its `train` call is an oracle parameter;
- shared feature pointers are modelled as always non-null (the code only
  asserts on null features), and the Qt progress-dialog calls, which do
  not affect the classifier state, are dropped.
-/

namespace Masc

/-- Modelled from the spec: the host `ccPointCloud` interface (§3, §6) --
point count, per-point coordinates and colors, and an ordered list of
named scalar fields (each a dense list of values). -/
structure PointCloud where
  size : Nat
  x : Nat → ℚ
  y : Nat → ℚ
  z : Nat → ℚ
  hasColors : Bool
  red : Nat → ℚ
  green : Nat → ℚ
  blue : Nat → ℚ
  scalarFields : List (String × List ℚ)

/-- Environment resolving cloud identifiers (C++ pointers) to clouds. -/
abbrev Env := Nat → PointCloud

/-- The `Feature::Source` enum of `FeaturesInterface.h`. -/
inductive FeatureSource where
  | scalarField
  | dimX
  | dimY
  | dimZ
  | red
  | green
  | blue
deriving DecidableEq

/-- The `Feature` descriptor of `FeaturesInterface.h`: associated cloud
(pointer, modelled as an identifier), value source, and source name
(mandatory for scalar fields). -/
structure Feature where
  cloud : Nat
  source : FeatureSource
  sourceName : String
deriving DecidableEq

/-- Default feature used only as a `getD` fallback. -/
def dfltFeature : Feature := { cloud := 0, source := .dimX, sourceName := "" }

/-- Modelled from the spec: a `CCLib::ReferenceCloud` subset (§3, §6): an
ordered list of global point indices plus the associated cloud.
`assoc = some cid` means the associated cloud is the `ccPointCloud` with
identifier `cid`; `assoc = none` models an associated cloud that is not a
`ccPointCloud` (so the `dynamic_cast` in `evaluate` fails and pointer
comparisons with any `ccPointCloud` are unequal). -/
structure RefCloud where
  assoc : Option Nat
  indices : List Nat
deriving DecidableEq

/-- Modelled from the spec: `ccPointCloud::getScalarFieldIndexByName`
(§6): index of the first scalar field with the given name, or -1. -/
def getScalarFieldIndexByName (c : PointCloud) (name : String) : Int :=
  match c.scalarFields.findIdx? (fun p => p.1 = name) with
  | some i => (i : Int)
  | none => -1

/-- Modelled from the spec: `ccPointCloud::getScalarField` (§6): the
field at a given index, or null (none) when the index is out of range. -/
def getScalarFieldAt (c : PointCloud) (idx : Int) : Option (List ℚ) :=
  if idx < 0 then none
  else (c.scalarFields[idx.toNat]?).map Prod.snd

/-- C++ float-to-int conversion: truncation toward zero. -/
def truncQ (q : ℚ) : Int := if 0 ≤ q then ⌊q⌋ else ⌈q⌉

/-- C++ conversion of an int to `unsigned char`: reduction modulo 256. -/
def ucharOf (i : Int) : Nat := (i % 256).toNat

/-- The value-source wrappers of `ScalarFieldWrappers.h`
(`ScalarFieldWrapper`, `DimScalarFieldWrapper`,
`ColorScalarFieldWrapper`). -/
inductive ValueSource where
  | sfWrap (cloud : PointCloud) (sf : List ℚ)
  | dimWrap (cloud : PointCloud) (d : FeatureSource)
  | colorWrap (cloud : PointCloud) (ch : FeatureSource)

/-- Modelled from the spec: value-source validity (§4.1;
`ScalarFieldWrappers.h` is not under src/): a scalar-field wrapper is
valid iff the field is at least as long as the cloud, coordinate wrappers
are always valid, color wrappers are valid iff the cloud has colors. -/
def ValueSource.isValid : ValueSource → Bool
  | .sfWrap c sf => c.size ≤ sf.length
  | .dimWrap _ _ => true
  | .colorWrap c _ => c.hasColors

/-- Modelled from the spec: `valueAt` of each wrapper (§4.1;
`ScalarFieldWrappers.h` is not under src/): the stored scalar-field
value, the coordinate component, or the color channel at the point
index. -/
def ValueSource.pointValue : ValueSource → Nat → ℚ
  | .sfWrap _ sf, i => sf.getD i 0
  | .dimWrap c .dimX, i => c.x i
  | .dimWrap c .dimY, i => c.y i
  | .dimWrap c .dimZ, i => c.z i
  | .dimWrap _ _, _ => 0
  | .colorWrap c .red, i => c.red i
  | .colorWrap c .green, i => c.green i
  | .colorWrap c .blue, i => c.blue i
  | .colorWrap _ _, _ => 0

/-- `GetSource` of `q3DMASCClassifier.cpp`: resolves a feature to a
wrapper over the given cloud (note: the cloud passed by the caller, not
the feature's own `cloud` field). A scalar-field feature resolves only
when the named field exists on that cloud (index >= 0); otherwise the
shared pointer stays null (none). -/
def getSource (env : Env) (f : Feature) (cid : Nat) : Option ValueSource :=
  match f.source with
  | .scalarField =>
      if 0 ≤ getScalarFieldIndexByName (env cid) f.sourceName then
        (getScalarFieldAt (env cid)
            (getScalarFieldIndexByName (env cid) f.sourceName)).map
          (fun sf => .sfWrap (env cid) sf)
      else none
  | .dimX => some (.dimWrap (env cid) .dimX)
  | .dimY => some (.dimWrap (env cid) .dimY)
  | .dimZ => some (.dimWrap (env cid) .dimZ)
  | .red => some (.colorWrap (env cid) .red)
  | .green => some (.colorWrap (env cid) .green)
  | .blue => some (.colorWrap (env cid) .blue)

/-- Modelled from the spec: the opaque state of the external
`cv::ml::RTrees` model (§6): an is-trained flag and a single-row
prediction function. -/
structure RTModel where
  trained : Bool
  predictFn : List ℚ → ℚ

/-- Modelled from the spec: `cv::ml::RTrees::create()` (and the state the
model is left in when its `train` raises, per the external contract that
a failed training leaves the model untrained): a fresh untrained
model. -/
def freshModel : RTModel := { trained := false, predictFn := fun _ => 0 }

/-- The `masc::Classifier` state: the (possibly null) shared pointer to
the random-trees model. -/
structure Classifier where
  rtrees : Option RTModel

/-- `Classifier::isValid`: the model pointer is non-null and the model
reports itself trained. -/
def Classifier.isValid (c : Classifier) : Bool :=
  match c.rtrees with
  | none => false
  | some m => m.trained

/-- `Classifier::AccuracyMetrics`. The C++ `ratio` field is a float; it
is modelled exactly, with `none` standing for NaN (the result of the
unguarded 0.0f / 0 division). -/
structure AccuracyMetrics where
  sampleCount : Nat
  goodGuess : Nat
  ratio : Option ℚ
deriving DecidableEq

/-- The metrics as zeroed at the top of `Classifier::evaluate`. -/
def zeroMetrics : AccuracyMetrics :=
  { sampleCount := 0, goodGuess := 0, ratio := some 0 }

/-- Modelled from the spec: `RandomTreesParams` (§3; `Parameters.h` is
not under src/). Passed through to the external trainer. -/
structure RandomTreesParams where
  maxDepth : Nat
  minSampleCount : Nat
  activeVarCount : Nat
  calcVarImportance : Bool
  maxTreeCount : Nat

/-- Outcome of the external `cv::ml::RTrees::train` call: either it
returns (leaving the model in state `m`), or it raises a
`cv::Exception`, a `std::exception`, or an unknown exception. -/
inductive TrainOutcome where
  | ret (m : RTModel)
  | cvExn (msg : String)
  | stdExn (msg : String)
  | unknownExn

/-- The external trainer as an oracle: given the hyperparameters, the
row-major sample matrix (here as columns) and the label vector, what the
`train` call does. -/
abbrev Trainer := RandomTreesParams → List (List ℚ) → List ℚ → TrainOutcome

def noFeatureMsg : String := "Training method called without any feature?!"
def notTrainedMsg : String := "Classifier has not been trained yet"
def noSubsetMsg : String := "No test subset provided"
def badTestSubsetMsg : String :=
  "Invalid test subset (associated point cloud is not a ccPointCloud)"
def badTrainSubsetMsg : String :=
  "Invalid train subset (associated point cloud is different)"
def missingClassifMsg : String := "Missing Classification field on input cloud"
def invalidClassifMsg : String := "Invalid Classification field on input cloud"
def invalidSourceMsg (name : String) : String :=
  "Internal error: invalid source " ++ name
def cloudMismatchMsg : String :=
  "Invalid feature: associated cloud is different than the others"
def trainFailedMsg : String := "Training failed for an unknown reason..."
def unknownErrMsg : String := "Unknown error"
def allocFailMsg : String := "cv::Mat allocation failed"

def classificationName : String := "Classification"

/-- The classification-field lookup block shared verbatim by
`Classifier::train` and `Classifier::evaluate`: look the field up by
name, treat index 0 as missing (the C++ `if (!classifSFIdx)` test), then
reject a null or too-short field. On success, the field's values. -/
def classifCheck (cloud : PointCloud) : Except String (List ℚ) :=
  if getScalarFieldIndexByName cloud classificationName = 0 then
    .error missingClassifMsg
  else
    match getScalarFieldAt cloud
        (getScalarFieldIndexByName cloud classificationName) with
    | none => .error invalidClassifMsg
    | some sf =>
        if sf.length < cloud.size then .error invalidClassifMsg
        else .ok sf

/-- The train-subset guard of `Classifier::train`: a given subset whose
associated cloud is not the features' cloud is rejected. -/
def subsetMismatch : Option RefCloud → Nat → Bool
  | none, _ => false
  | some s, cid => s.assoc != some cid

/-- Row-to-point mapping of `Classifier::train`: subset indices when a
subset is given, the identity on 0..size-1 otherwise. -/
def trainRowPoints (env : Env) (cid : Nat) : Option RefCloud → List Nat
  | some s => s.indices
  | none => List.range (env cid).size

/-- The label-vector fill loop of `Classifier::train`: for each selected
point, the Classification value truncated to int and cast to unsigned
char, stored as a float. -/
def buildLabels (sf : List ℚ) (rowPoints : List Nat) : List ℚ :=
  rowPoints.map (fun p => (ucharOf (truncQ (sf.getD p 0)) : ℚ))

/-- The data-matrix fill loop shared by `Classifier::train` and
`Classifier::evaluate`, producing one column per feature (each column
lists the resolved source's values at the row points, which is exactly
what the C++ per-cell writes produce). `chk` is true for the train
variant, which additionally rejects any feature whose associated cloud
differs from the build cloud; the evaluate variant performs no such
check. A feature that does not resolve to a valid source aborts the
build. -/
def fillDataMatrix (env : Env) (cid : Nat) (rowPoints : List Nat)
    (chk : Bool) : List Feature → Except String (List (List ℚ))
  | [] => .ok []
  | f :: fs =>
      if chk ∧ f.cloud ≠ cid then .error cloudMismatchMsg
      else
        match getSource env f cid with
        | none => .error (invalidSourceMsg f.sourceName)
        | some s =>
            if s.isValid then
              match fillDataMatrix env cid rowPoints chk fs with
              | .error e => .error e
              | .ok cols => .ok (rowPoints.map s.pointValue :: cols)
            else .error (invalidSourceMsg f.sourceName)

/-- Row `i` of the matrix stored as columns: one value per feature. -/
def rowOf (cols : List (List ℚ)) (i : Nat) : List ℚ :=
  cols.map (fun col => col.getD i 0)

/-- The accuracy-ratio computation of `Classifier::evaluate`:
`float(goodGuess) / sampleCount` with no guard, so 0/0 is the float NaN
(modelled as none). -/
def ratioOf (good total : Nat) : Option ℚ :=
  if total = 0 then none else some ((good : ℚ) / (total : ℚ))

/-- The good-guess count of `Classifier::evaluate`: rows whose truncated
prediction equals the truncated Classification value of the row's
point. -/
def goodGuessCount (m : RTModel) (sf : List ℚ) (idxs : List Nat)
    (cols : List (List ℚ)) : Nat :=
  (List.range idxs.length).countP (fun i =>
    truncQ (m.predictFn (rowOf cols i)) == truncQ (sf.getD (idxs.getD i 0) 0))

/-- The metrics block of `Classifier::evaluate`. -/
def evalMetrics (m : RTModel) (sf : List ℚ) (idxs : List Nat)
    (cols : List (List ℚ)) : AccuracyMetrics :=
  { sampleCount := idxs.length
    goodGuess := goodGuessCount m sf idxs cols
    ratio := ratioOf (goodGuessCount m sf idxs cols) idxs.length }

/-- `Classifier::evaluate`. Returns (classifier state after the call,
metrics, success flag, error message); the method never assigns its
`m_rtrees` member, so every branch returns the incoming state. The
metrics are zeroed first; `allocOk` is the oracle for the `cv::Mat`
allocation (false models a `cv::Exception` from `create`). -/
def evaluateC (env : Env) (c : Classifier) (features : List Feature)
    (testSubset : Option RefCloud) (allocOk : Bool) :
    Classifier × AccuracyMetrics × Bool × String :=
  match c.rtrees with
  | none => (c, zeroMetrics, false, notTrainedMsg)
  | some m =>
      if !m.trained then (c, zeroMetrics, false, notTrainedMsg)
      else if features.isEmpty then (c, zeroMetrics, false, noFeatureMsg)
      else
        match testSubset with
        | none => (c, zeroMetrics, false, noSubsetMsg)
        | some ts =>
            match ts.assoc with
            | none => (c, zeroMetrics, false, badTestSubsetMsg)
            | some cid =>
                match classifCheck (env cid) with
                | .error e => (c, zeroMetrics, false, e)
                | .ok sf =>
                    if allocOk then
                      match fillDataMatrix env cid ts.indices false features with
                      | .error e => (c, zeroMetrics, false, e)
                      | .ok cols =>
                          (c, evalMetrics m sf ts.indices cols, true, "")
                    else (c, zeroMetrics, false, allocFailMsg)

/-- `Classifier::train`. Returns (classifier state after the call,
success flag, error message). Precondition and matrix-phase failures
return before `m_rtrees` is touched; from the `cv::ml::RTrees::create()`
assignment on, the member is replaced: a `cv::Exception` releases it
(none), a `std::exception` or unknown exception leaves the freshly
created (untrained) model in place, a training call that returns with an
untrained model releases it, and only a returned trained model yields
success. -/
def trainC (env : Env) (trainer : Trainer) (c : Classifier)
    (params : RandomTreesParams) (features : List Feature)
    (trainSubset : Option RefCloud) (allocOk : Bool) :
    Classifier × Bool × String :=
  match features with
  | [] => (c, false, noFeatureMsg)
  | f0 :: _ =>
      if subsetMismatch trainSubset f0.cloud then (c, false, badTrainSubsetMsg)
      else
        match classifCheck (env f0.cloud) with
        | .error e => (c, false, e)
        | .ok sf =>
            if allocOk then
              match fillDataMatrix env f0.cloud
                  (trainRowPoints env f0.cloud trainSubset) true features with
              | .error e => (c, false, e)
              | .ok cols =>
                  match trainer params cols
                      (buildLabels sf (trainRowPoints env f0.cloud trainSubset)) with
                  | .ret m =>
                      if m.trained then ({ rtrees := some m }, true, "")
                      else ({ rtrees := none }, false, trainFailedMsg)
                  | .cvExn msg => ({ rtrees := none }, false, msg)
                  | .stdExn msg => ({ rtrees := some freshModel }, false, msg)
                  | .unknownExn => ({ rtrees := some freshModel }, false, unknownErrMsg)
            else (c, false, allocFailMsg)

/-- `Classifier::toFile`, with the external serialization abstracted: a
null model refuses to save (none); otherwise the serialized bytes of the
model. Modelled from the spec: the external save-to-bytes operation
(§6) is an arbitrary function supplied as a parameter. -/
def toFileC {β : Type} (c : Classifier) (save : RTModel → β) : Option β :=
  c.rtrees.map save

/-- `Classifier::fromFile` on a file that parses: the member is replaced
by the loaded model and the call returns true unconditionally (an
untrained loaded model only triggers a warning). Modelled from the
spec: the external load-from-bytes operation (§6) is an arbitrary
function supplied as a parameter. -/
def fromFileC {β : Type} (load : β → RTModel) (b : β) : Classifier × Bool :=
  ({ rtrees := some (load b) }, true)

/-- Two features with the same source kind and source name (possibly
different associated clouds). -/
def sameSource (f g : Feature) : Prop :=
  f.source = g.source ∧ f.sourceName = g.sourceName

/-- Concrete two-point cloud used to instantiate the theorems: constant
coordinates and colors, a dummy scalar field at index 0 and the
Classification field (values 0 and 1) at index 1. -/
def cloud0 : PointCloud :=
  { size := 2
    x := fun _ => 1, y := fun _ => 2, z := fun _ => 3
    hasColors := true
    red := fun _ => 10, green := fun _ => 20, blue := fun _ => 30
    scalarFields := [("dummy", [5, 6]), ("Classification", [0, 1])] }

/-- Concrete cloud whose Classification field sits at scalar-field
index 0. -/
def cloudZ : PointCloud :=
  { size := 2
    x := fun _ => 1, y := fun _ => 2, z := fun _ => 3
    hasColors := true
    red := fun _ => 10, green := fun _ => 20, blue := fun _ => 30
    scalarFields := [("Classification", [0, 1])] }

/-- Concrete cloud with no Classification field at all (name lookup
returns -1). -/
def cloudN : PointCloud :=
  { size := 2
    x := fun _ => 1, y := fun _ => 2, z := fun _ => 3
    hasColors := true
    red := fun _ => 10, green := fun _ => 20, blue := fun _ => 30
    scalarFields := [("dummy", [5, 6])] }

/-- Environment mapping every identifier to `cloud0` (distinct
identifiers model distinct clouds that happen to have equal content). -/
def env0 : Env := fun _ => cloud0

/-- Environment mapping every identifier to `cloudZ`. -/
def envZ : Env := fun _ => cloudZ

/-- Environment mapping every identifier to `cloudN`. -/
def envN : Env := fun _ => cloudN

/-- Concrete coordinate feature on cloud 0. -/
def feat0 : Feature := { cloud := 0, source := .dimX, sourceName := "" }

/-- The same extraction rule as `feat0` but associated with cloud 42. -/
def featWrongCloud : Feature := { cloud := 42, source := .dimX, sourceName := "" }

/-- Concrete trained model predicting class 0 for every row. -/
def mTrained : RTModel := { trained := true, predictFn := fun _ => 0 }

/-- External-trainer oracle that succeeds with `mTrained`. -/
def trainerOk : Trainer := fun _ _ _ => .ret mTrained

/-- Concrete hyperparameters. -/
def params0 : RandomTreesParams :=
  { maxDepth := 25, minSampleCount := 1, activeVarCount := 0
    calcVarImportance := false, maxTreeCount := 100 }

/-- Concrete test subset over cloud 0 selecting both points. -/
def sub01 : RefCloud := { assoc := some 0, indices := [0, 1] }

/-- Concrete empty test subset over cloud 0. -/
def subEmpty : RefCloud := { assoc := some 0, indices := [] }

/-! ## Helper lemmas -/

theorem goodGuessCount_le (m : RTModel) (sf : List ℚ) (idxs : List Nat)
    (cols : List (List ℚ)) : goodGuessCount m sf idxs cols ≤ idxs.length := by
  have h := List.countP_le_length (l := List.range idxs.length)
    (p := fun i => truncQ (m.predictFn (rowOf cols i))
      == truncQ (sf.getD (idxs.getD i 0) 0))
  simpa [goodGuessCount] using h

theorem evalMetrics_bounds (mm : RTModel) (sf : List ℚ) (idxs : List Nat)
    (cols : List (List ℚ)) :
    (evalMetrics mm sf idxs cols).goodGuess ≤
      (evalMetrics mm sf idxs cols).sampleCount ∧
    ((evalMetrics mm sf idxs cols).sampleCount = 0 →
      (evalMetrics mm sf idxs cols).ratio = none) ∧
    (0 < (evalMetrics mm sf idxs cols).sampleCount →
      (evalMetrics mm sf idxs cols).ratio =
        some (((evalMetrics mm sf idxs cols).goodGuess : ℚ) /
          ((evalMetrics mm sf idxs cols).sampleCount : ℚ)) ∧
      ∀ q : ℚ, (evalMetrics mm sf idxs cols).ratio = some q →
        0 ≤ q ∧ q ≤ 1) := by
  refine ⟨goodGuessCount_le mm sf idxs cols, ?_, ?_⟩
  · intro h0
    have h1 : idxs.length = 0 := h0
    simp [evalMetrics, ratioOf, h1]
  · intro hpos
    have hne : idxs.length ≠ 0 := Nat.pos_iff_ne_zero.mp hpos
    constructor
    · simp [evalMetrics, ratioOf, hne]
    · intro q hq
      have h2 : ratioOf (goodGuessCount mm sf idxs cols) idxs.length = some q := hq
      rw [ratioOf, if_neg hne] at h2
      have h3 : ((goodGuessCount mm sf idxs cols : ℚ) / (idxs.length : ℚ)) = q := by
        injection h2
      subst h3
      constructor
      · positivity
      · rw [div_le_one (by exact_mod_cast hpos)]
        exact_mod_cast goodGuessCount_le mm sf idxs cols

theorem getD_map_q (g : Nat → ℚ) (l : List Nat) (i : Nat) (hi : i < l.length) :
    (l.map g).getD i 0 = g (l.getD i 0) := by
  simp [List.getD_eq_getElem?_getD, List.getElem?_map, List.getElem?_eq_getElem hi]

theorem fill_ok_spec (env : Env) (cid : Nat) (rowPoints : List Nat) (chk : Bool)
    (fs : List Feature) (cols : List (List ℚ))
    (h : fillDataMatrix env cid rowPoints chk fs = .ok cols) :
    cols.length = fs.length ∧
    (∀ col ∈ cols, col.length = rowPoints.length) ∧
    (∀ i j, i < rowPoints.length → j < fs.length →
      ∃ s, getSource env (fs.getD j dfltFeature) cid = some s ∧
        s.isValid = true ∧
        (cols.getD j []).getD i 0 = s.pointValue (rowPoints.getD i 0)) := by
  induction fs generalizing cols with
  | nil =>
      rw [fillDataMatrix] at h
      injection h with h
      subst h
      refine ⟨rfl, by simp, ?_⟩
      intro i j hi hj
      simp at hj
  | cons f fs ih =>
      rw [fillDataMatrix] at h
      split at h
      · exact Except.noConfusion h
      · split at h
        · exact Except.noConfusion h
        · rename_i s hs
          split at h
          · rename_i hv
            split at h
            · exact Except.noConfusion h
            · rename_i cols' hcols'
              injection h with h
              subst h
              obtain ⟨ih1, ih2, ih3⟩ := ih cols' hcols'
              refine ⟨by simp [ih1], ?_, ?_⟩
              · intro col hcol
                rcases List.mem_cons.mp hcol with hc | hc
                · subst hc; simp
                · exact ih2 col hc
              · intro i j hi hj
                cases j with
                | zero =>
                    refine ⟨s, hs, hv, ?_⟩
                    simp only [List.getD_cons_zero]
                    exact getD_map_q s.pointValue rowPoints i hi
                | succ j =>
                    have hj' : j < fs.length := by
                      simpa using Nat.lt_of_succ_lt_succ hj
                    obtain ⟨s', hs', hv', hcell⟩ := ih3 i j hi hj'
                    exact ⟨s', hs', hv', by simpa using hcell⟩
          · exact Except.noConfusion h

theorem fill_chk_clouds (env : Env) (cid : Nat) (rowPoints : List Nat)
    (fs : List Feature) (cols : List (List ℚ))
    (h : fillDataMatrix env cid rowPoints true fs = .ok cols) :
    ∀ f ∈ fs, f.cloud = cid := by
  induction fs generalizing cols with
  | nil => intro f hf; simp at hf
  | cons f0 fs ih =>
      rw [fillDataMatrix] at h
      split at h
      · exact Except.noConfusion h
      · rename_i hcond
        have hcl : f0.cloud = cid := by
          by_contra hne
          exact hcond ⟨rfl, hne⟩
        split at h
        · exact Except.noConfusion h
        · split at h
          · split at h
            · exact Except.noConfusion h
            · rename_i cols' hcols'
              intro f hf
              rcases List.mem_cons.mp hf with hc | hc
              · subst hc; exact hcl
              · exact ih cols' hcols' f hc
          · exact Except.noConfusion h

theorem getSource_congr (env : Env) (cid : Nat) (f g : Feature)
    (h : sameSource f g) : getSource env f cid = getSource env g cid := by
  obtain ⟨h1, h2⟩ := h
  unfold getSource
  rw [h1, h2]

theorem fill_congr (env : Env) (cid : Nat) (rowPoints : List Nat)
    (fs gs : List Feature) (h : List.Forall₂ sameSource fs gs) :
    fillDataMatrix env cid rowPoints false fs =
      fillDataMatrix env cid rowPoints false gs := by
  induction h with
  | nil => rfl
  | cons hfg hrest ih =>
      rw [fillDataMatrix, fillDataMatrix]
      rw [if_neg (by simp), if_neg (by simp)]
      rw [getSource_congr _ _ _ _ hfg, ih, hfg.2]

theorem trainC_success_state (env : Env) (trainer : Trainer) (c : Classifier)
    (params : RandomTreesParams) (features : List Feature)
    (subset : Option RefCloud) (aok : Bool) (cOut : Classifier) (msg : String)
    (h : trainC env trainer c params features subset aok = (cOut, true, msg)) :
    ∃ m, cOut = { rtrees := some m } ∧ m.trained = true := by
  unfold trainC at h
  repeat' split at h
  all_goals (
    injection h with hA h
    injection h with hB hC
    first
    | exact Bool.noConfusion hB
    | (rename_i m heqm htr; exact ⟨m, hA.symm, htr⟩))

theorem trainC_success_clouds (env : Env) (trainer : Trainer) (c : Classifier)
    (params : RandomTreesParams) (f0 : Feature) (fs : List Feature)
    (subset : Option RefCloud) (aok : Bool) (cOut : Classifier) (msg : String)
    (h : trainC env trainer c params (f0 :: fs) subset aok = (cOut, true, msg)) :
    ∀ f ∈ f0 :: fs, f.cloud = f0.cloud := by
  rw [trainC] at h
  repeat' split at h
  all_goals (
    injection h with hA h
    injection h with hB hC
    first
    | exact Bool.noConfusion hB
    | (rename_i cols hfill oc m heqm htr
       exact fill_chk_clouds _ _ _ _ _ hfill))

theorem evaluate_source_invariance (env : Env) (c : Classifier)
    (fs gs : List Feature) (ts : Option RefCloud) (aok : Bool)
    (h : List.Forall₂ sameSource fs gs) :
    evaluateC env c fs ts aok = evaluateC env c gs ts aok := by
  have hlen : fs.isEmpty = gs.isEmpty := by
    cases h with
    | nil => rfl
    | cons _ _ => rfl
  unfold evaluateC
  rw [hlen]
  split
  any_goals rfl
  split
  any_goals rfl
  split
  any_goals rfl
  split
  any_goals rfl
  split
  any_goals rfl
  split
  any_goals rfl
  split
  any_goals rfl
  rw [fill_congr env _ _ fs gs h]

theorem classifCheck_missing (cloud : PointCloud)
    (h : getScalarFieldIndexByName cloud classificationName = 0) :
    classifCheck cloud = .error missingClassifMsg := by
  simp [classifCheck, h]

theorem classifCheck_notfound (cloud : PointCloud)
    (h : cloud.scalarFields.findIdx? (fun p => p.1 = classificationName) = none) :
    classifCheck cloud = .error invalidClassifMsg := by
  have hidx : getScalarFieldIndexByName cloud classificationName = -1 := by
    simp [getScalarFieldIndexByName, h]
  simp [classifCheck, hidx, getScalarFieldAt]

theorem trainC_classif_error (env : Env) (trainer : Trainer) (c : Classifier)
    (params : RandomTreesParams) (f0 : Feature) (fs : List Feature)
    (subset : Option RefCloud) (aok : Bool) (e : String)
    (hsub : subsetMismatch subset f0.cloud = false)
    (hcc : classifCheck (env f0.cloud) = .error e) :
    trainC env trainer c params (f0 :: fs) subset aok = (c, false, e) := by
  rw [trainC]
  simp [hsub, hcc]

theorem evaluateC_classif_error (env : Env) (c : Classifier) (m : RTModel)
    (f0 : Feature) (fs : List Feature) (ts : RefCloud) (aok : Bool)
    (e : String) (cid : Nat)
    (hm : c.rtrees = some m) (hmt : m.trained = true)
    (hts : ts.assoc = some cid)
    (hcc : classifCheck (env cid) = .error e) :
    evaluateC env c (f0 :: fs) (some ts) aok = (c, zeroMetrics, false, e) := by
  rw [evaluateC, hm]
  simp [hmt, hts, hcc]

theorem fill_mismatch_error (env : Env) (cid : Nat) (rowPoints : List Nat)
    (fs : List Feature)
    (hres : ∀ f ∈ fs, f.cloud = cid →
      ∃ s, getSource env f cid = some s ∧ s.isValid = true)
    (hmm : ∃ f ∈ fs, f.cloud ≠ cid) :
    fillDataMatrix env cid rowPoints true fs = .error cloudMismatchMsg := by
  induction fs with
  | nil =>
      obtain ⟨f, hf, _⟩ := hmm
      simp at hf
  | cons f0 fs ih =>
      rw [fillDataMatrix]
      by_cases hc : f0.cloud = cid
      · have hmm' : ∃ f ∈ fs, f.cloud ≠ cid := by
          obtain ⟨f, hf, hnef⟩ := hmm
          rcases List.mem_cons.mp hf with hh | hf'
          · exact absurd (hh ▸ hc) hnef
          · exact ⟨f, hf', hnef⟩
        have hres' : ∀ f ∈ fs, f.cloud = cid →
            ∃ s, getSource env f cid = some s ∧ s.isValid = true :=
          fun f hf => hres f (List.mem_cons_of_mem f0 hf)
        obtain ⟨s, hs, hv⟩ := hres f0 (List.mem_cons_self f0 fs) hc
        rw [ih hres' hmm']
        simp [hs, hv, hc]
      · simp [hc]

theorem trainC_mismatch_error (env : Env) (trainer : Trainer) (c : Classifier)
    (params : RandomTreesParams) (f0 : Feature) (fs : List Feature)
    (subset : Option RefCloud) (sf : List ℚ)
    (hsub : subsetMismatch subset f0.cloud = false)
    (hcc : classifCheck (env f0.cloud) = .ok sf)
    (hres : ∀ f ∈ f0 :: fs, f.cloud = f0.cloud →
      ∃ s, getSource env f f0.cloud = some s ∧ s.isValid = true)
    (hmm : ∃ f ∈ f0 :: fs, f.cloud ≠ f0.cloud) :
    trainC env trainer c params (f0 :: fs) subset true =
      (c, false, cloudMismatchMsg) := by
  have hfill := fill_mismatch_error env f0.cloud
    (trainRowPoints env f0.cloud subset) (f0 :: fs) hres hmm
  rw [trainC]
  simp [hsub, hcc, hfill]

/-! ## Claim theorems -/

/-- C1: for every non-empty feature set over a cloud and every row-point
selection (the test-subset indices in evaluate, the given subset's
indices or the full 0..pointCount-1 range in train) whose indices are
all below the cloud's point count, a successful matrix build yields
exactly one column per feature, each column of length equal to the
number of selected rows (the subset size, or the cloud point count when
train is given no subset), and cell (i, j) equals the value at the i-th
selected point of the valid value source resolved from feature j against
the build cloud. -/
theorem fill_matrix_spec (env : Env) (cid : Nat) (subset : Option RefCloud)
    (chk : Bool) (features : List Feature) (cols : List (List ℚ))
    (hne : features ≠ [])
    (hbound : ∀ p ∈ trainRowPoints env cid subset, p < (env cid).size)
    (h : fillDataMatrix env cid (trainRowPoints env cid subset) chk features
      = .ok cols) :
    cols.length = features.length ∧
    (∀ col ∈ cols, col.length = (trainRowPoints env cid subset).length) ∧
    (∀ s, subset = some s →
      (trainRowPoints env cid subset).length = s.indices.length) ∧
    (subset = none →
      (trainRowPoints env cid subset).length = (env cid).size) ∧
    (∀ i j, i < (trainRowPoints env cid subset).length → j < features.length →
      ∃ s, getSource env (features.getD j dfltFeature) cid = some s ∧
        s.isValid = true ∧
        (cols.getD j []).getD i 0 =
          s.pointValue ((trainRowPoints env cid subset).getD i 0)) := by
  obtain ⟨h1, h2, h3⟩ := fill_ok_spec env cid _ chk features cols h
  refine ⟨h1, h2, ?_, ?_, h3⟩
  · intro s hs
    subst hs
    rfl
  · intro hn
    subst hn
    simp [trainRowPoints]

/-- C1 witness: the build over cloud 0 with the coordinate feature and
the two-point subset, evaluated at cell (0, 0). -/
theorem fill_matrix_spec_witness :
    ∃ s, getSource env0 ([feat0].getD 0 dfltFeature) 0 = some s ∧
      s.isValid = true ∧
      (([[(1 : ℚ), 1]].getD 0 []).getD 0 0 =
        s.pointValue ((trainRowPoints env0 0 (some sub01)).getD 0 0)) :=
  (fill_matrix_spec env0 0 (some sub01) true [feat0] [[1, 1]]
    (by decide) (by decide) (by rfl)).2.2.2.2 0 0 (by decide) (by decide)

/-- C2 counterexample: a classifier holding a trained model on which
train fails (empty feature set) keeps the previously trained model and
still reports isValid() = true, contradicting the claim that every
failed train leaves isValid() false with the previous model
discarded. -/
theorem train_discard_cex :
    trainC env0 trainerOk { rtrees := some mTrained } params0 [] none true =
      ({ rtrees := some mTrained }, false, noFeatureMsg) ∧
    Classifier.isValid { rtrees := some mTrained } = true :=
  ⟨rfl, rfl⟩

/-- C2 (amended): every failed train either leaves the classifier state
exactly unchanged (precondition and matrix-phase failures, where a
previously trained model survives and isValid() can still be true), or
leaves it with isValid() = false (failures from the external training
call on: the model is released or replaced by an untrained one); no
other half-updated state is possible. -/
theorem train_failure_state (env : Env) (trainer : Trainer) (c : Classifier)
    (params : RandomTreesParams) (features : List Feature)
    (subset : Option RefCloud) (aok : Bool) (cOut : Classifier) (msg : String)
    (h : trainC env trainer c params features subset aok = (cOut, false, msg)) :
    cOut = c ∨ cOut.isValid = false := by
  unfold trainC at h
  repeat' split at h
  all_goals (
    injection h with hA h
    injection h with hB hC
    first
    | exact Bool.noConfusion hB
    | exact Or.inl hA.symm
    | (right; rw [← hA]; rfl))

/-- C2 witness: the failed train of the counterexample scenario falls in
the state-unchanged case. -/
theorem train_failure_state_witness :
    ({ rtrees := some mTrained } : Classifier) = { rtrees := some mTrained } ∨
    Classifier.isValid { rtrees := some mTrained } = false :=
  train_failure_state env0 trainerOk { rtrees := some mTrained } params0 []
    none true { rtrees := some mTrained } noFeatureMsg rfl

/-- C3 counterexample: evaluate on an empty test subset reaches the
metric step (returns true) with sampleCount = 0, yet the returned ratio
is the 0/0 float NaN (modelled none), not 0. -/
theorem ratio_empty_cex :
    (evaluateC env0 { rtrees := some mTrained } [feat0] (some subEmpty)
      true).2.2.1 = true ∧
    (evaluateC env0 { rtrees := some mTrained } [feat0] (some subEmpty)
      true).2.1.sampleCount = 0 ∧
    (evaluateC env0 { rtrees := some mTrained } [feat0] (some subEmpty)
      true).2.1.ratio = none ∧
    (none : Option ℚ) ≠ some 0 :=
  ⟨rfl, rfl, rfl, by simp⟩

/-- C3 (amended): whenever evaluate reaches the metric step, goodGuess
never exceeds sampleCount; when sampleCount is positive the ratio is
exactly goodGuess / sampleCount and lies in [0, 1]; when the test subset
is empty (sampleCount = 0) the ratio is the 0/0 float NaN (modelled
none), not 0. -/
theorem ratio_bounds (env : Env) (c : Classifier) (fs : List Feature)
    (ts : Option RefCloud) (aok : Bool) (cOut : Classifier)
    (m : AccuracyMetrics) (msg : String)
    (h : evaluateC env c fs ts aok = (cOut, m, true, msg)) :
    m.goodGuess ≤ m.sampleCount ∧
    (m.sampleCount = 0 → m.ratio = none) ∧
    (0 < m.sampleCount →
      m.ratio = some ((m.goodGuess : ℚ) / (m.sampleCount : ℚ)) ∧
      ∀ q : ℚ, m.ratio = some q → 0 ≤ q ∧ q ≤ 1) := by
  unfold evaluateC at h
  repeat' split at h
  all_goals (
    injection h with hA h
    injection h with hM h
    injection h with hB hC
    first
    | exact Bool.noConfusion hB
    | (subst hM; exact evalMetrics_bounds _ _ _ _))

/-- C3 witness: the two-point evaluation scenario reaches the metric
step and its goodGuess is bounded by its sampleCount. -/
theorem ratio_bounds_witness :
    (evaluateC env0 { rtrees := some mTrained } [feat0] (some sub01)
      true).2.1.goodGuess ≤
    (evaluateC env0 { rtrees := some mTrained } [feat0] (some sub01)
      true).2.1.sampleCount :=
  (ratio_bounds env0 { rtrees := some mTrained } [feat0] (some sub01) true
    ((evaluateC env0 { rtrees := some mTrained } [feat0] (some sub01) true).1)
    ((evaluateC env0 { rtrees := some mTrained } [feat0] (some sub01) true).2.1)
    ((evaluateC env0 { rtrees := some mTrained } [feat0] (some sub01) true).2.2.2)
    rfl).1

/-- C4 counterexample: a Classification value of 300 is stored as label
44 (the unsigned-char cast of the truncated value), not as the truncated
value 300 itself. -/
theorem labels_uchar_cex :
    (buildLabels [300] [0]).getD 0 0 = 44 ∧
    truncQ (([(300 : ℚ)]).getD 0 0) = 300 ∧
    ((44 : ℚ) ≠ 300) := by
  refine ⟨by decide, by decide, by decide⟩

/-- C4 (amended): the label written at row i equals the integer-truncated
Classification value of the i-th selected point reduced modulo 256 by
the unsigned-char cast, in the same row order as the matrix; it equals
the plain truncated value exactly when that value lies in [0, 255]. -/
theorem labels_spec (sf : List ℚ) (rowPoints : List Nat) (i : Nat)
    (hi : i < rowPoints.length) :
    (buildLabels sf rowPoints).getD i 0 =
      (ucharOf (truncQ (sf.getD (rowPoints.getD i 0) 0)) : ℚ) ∧
    (∀ t : Int, (ucharOf t : Int) = t % 256) ∧
    (∀ t : Int, 0 ≤ t → t < 256 → (ucharOf t : Int) = t) := by
  refine ⟨getD_map_q _ rowPoints i hi, ?_, ?_⟩
  · intro t
    unfold ucharOf
    omega
  · intro t h0 h256
    unfold ucharOf
    omega

/-- C4 witness: the amended label equation at the counterexample
input. -/
theorem labels_spec_witness :
    (buildLabels [300] [0]).getD 0 0 =
      (ucharOf (truncQ (([(300 : ℚ)]).getD (([0] : List Nat).getD 0 0) 0)) : ℚ) :=
  (labels_spec [300] [0] 0 (by decide)).1

/-- C5: on a cloud whose Classification field is stored at scalar-field
index 0, both train and evaluate take the missing-field branch (the C++
test treats index 0 as not found) and fail with the missing-field error;
a cloud whose lookup genuinely finds no field (index -1) is not caught by
that branch: the -1 index makes the field pointer null and both calls
fail with the distinct invalid-field error instead. -/
theorem classif_index_zero (env : Env) (trainer : Trainer) (c : Classifier)
    (m : RTModel) (params : RandomTreesParams) (f0 : Feature)
    (fs : List Feature) (subset : Option RefCloud) (aok : Bool)
    (ts : RefCloud) (aok2 : Bool)
    (hsub : subsetMismatch subset f0.cloud = false)
    (hm : c.rtrees = some m) (hmt : m.trained = true)
    (hts : ts.assoc = some f0.cloud) :
    (getScalarFieldIndexByName (env f0.cloud) classificationName = 0 →
      trainC env trainer c params (f0 :: fs) subset aok =
        (c, false, missingClassifMsg) ∧
      evaluateC env c (f0 :: fs) (some ts) aok2 =
        (c, zeroMetrics, false, missingClassifMsg)) ∧
    ((env f0.cloud).scalarFields.findIdx?
        (fun p => p.1 = classificationName) = none →
      trainC env trainer c params (f0 :: fs) subset aok =
        (c, false, invalidClassifMsg) ∧
      evaluateC env c (f0 :: fs) (some ts) aok2 =
        (c, zeroMetrics, false, invalidClassifMsg)) ∧
    missingClassifMsg ≠ invalidClassifMsg := by
  refine ⟨?_, ?_, by decide⟩
  · intro hidx
    have hcc := classifCheck_missing (env f0.cloud) hidx
    exact ⟨trainC_classif_error env trainer c params f0 fs subset aok _ hsub hcc,
      evaluateC_classif_error env c m f0 fs ts aok2 _ f0.cloud hm hmt hts hcc⟩
  · intro hnone
    have hcc := classifCheck_notfound (env f0.cloud) hnone
    exact ⟨trainC_classif_error env trainer c params f0 fs subset aok _ hsub hcc,
      evaluateC_classif_error env c m f0 fs ts aok2 _ f0.cloud hm hmt hts hcc⟩

/-- C5 witness: on the cloud with Classification at index 0 both calls
report the missing-field error, and on the cloud with no Classification
field at all train reports the invalid-field error instead. -/
theorem classif_index_zero_witness :
    (trainC envZ trainerOk { rtrees := some mTrained } params0 [feat0] none
        true = ({ rtrees := some mTrained }, false, missingClassifMsg)) ∧
    (evaluateC envZ { rtrees := some mTrained } [feat0] (some sub01) true =
      ({ rtrees := some mTrained }, zeroMetrics, false, missingClassifMsg)) ∧
    (trainC envN trainerOk { rtrees := some mTrained } params0 [feat0] none
        true = ({ rtrees := some mTrained }, false, invalidClassifMsg)) :=
  ⟨((classif_index_zero envZ trainerOk { rtrees := some mTrained } mTrained
      params0 feat0 [] none true sub01 true rfl rfl rfl rfl).1 (by decide)).1,
   ((classif_index_zero envZ trainerOk { rtrees := some mTrained } mTrained
      params0 feat0 [] none true sub01 true rfl rfl rfl rfl).1 (by decide)).2,
   ((classif_index_zero envN trainerOk { rtrees := some mTrained } mTrained
      params0 feat0 [] none true sub01 true rfl rfl rfl rfl).2.1 (by decide)).1⟩

/-- C6 counterexample: evaluate with a feature whose associated cloud
(42) differs from the test subset's cloud (0) does not fail: it resolves
the feature against the subset's cloud and returns success, so the
claimed distinct error for mismatched backing clouds never occurs in
evaluate. -/
theorem evaluate_cloud_cex :
    featWrongCloud.cloud = 42 ∧
    sub01.assoc = some 0 ∧
    (42 : Nat) ≠ 0 ∧
    (evaluateC env0 { rtrees := some mTrained } [featWrongCloud] (some sub01)
      true).2.2.1 = true :=
  ⟨rfl, rfl, by decide, rfl⟩

/-- C6 (amended): in train, whenever some feature's associated cloud
differs from the first feature's cloud and the call reaches the matrix
fill (valid subset, Classification field present, allocation succeeds,
and the matching-cloud features ahead of the mismatch resolve to valid
sources), the call fails with exactly the distinct cloud-mismatch error
and the classifier state is untouched, so no matrix is used for
training; conversely a successful train guarantees every feature's
cloud equals the first feature's; evaluate, however, performs no
backing-cloud check at all: its result is invariant under arbitrary
changes of the features' associated clouds, every feature being
resolved against the test subset's cloud. -/
theorem cloud_check_amended :
    (∀ (env : Env) (trainer : Trainer) (c : Classifier)
       (params : RandomTreesParams) (f0 : Feature) (fs : List Feature)
       (subset : Option RefCloud) (sf : List ℚ),
       subsetMismatch subset f0.cloud = false →
       classifCheck (env f0.cloud) = .ok sf →
       (∀ f ∈ f0 :: fs, f.cloud = f0.cloud →
         ∃ s, getSource env f f0.cloud = some s ∧ s.isValid = true) →
       (∃ f ∈ f0 :: fs, f.cloud ≠ f0.cloud) →
       trainC env trainer c params (f0 :: fs) subset true =
         (c, false, cloudMismatchMsg)) ∧
    (∀ (env : Env) (trainer : Trainer) (c : Classifier)
       (params : RandomTreesParams) (f0 : Feature) (fs : List Feature)
       (subset : Option RefCloud) (aok : Bool) (cOut : Classifier)
       (msg : String),
       trainC env trainer c params (f0 :: fs) subset aok = (cOut, true, msg) →
       ∀ f ∈ f0 :: fs, f.cloud = f0.cloud) ∧
    (∀ (env : Env) (c : Classifier) (fs gs : List Feature)
       (ts : Option RefCloud) (aok : Bool),
       List.Forall₂ sameSource fs gs →
       evaluateC env c fs ts aok = evaluateC env c gs ts aok) :=
  ⟨fun env trainer c params f0 fs subset sf hsub hcc hres hmm =>
    trainC_mismatch_error env trainer c params f0 fs subset sf hsub hcc
      hres hmm,
   fun env trainer c params f0 fs subset aok cOut msg h =>
    trainC_success_clouds env trainer c params f0 fs subset aok cOut msg h,
   fun env c fs gs ts aok h =>
    evaluate_source_invariance env c fs gs ts aok h⟩

/-- C6 witness: train on the feature pair whose second feature sits on
cloud 42 fails with the cloud-mismatch error leaving the trained state
untouched; the successful concrete train has all features on the first
feature's cloud; and the concrete evaluate result is unchanged when the
feature's associated cloud is moved from 0 to 42. -/
theorem cloud_check_amended_witness :
    (trainC env0 trainerOk { rtrees := some mTrained } params0
        [feat0, featWrongCloud] none true =
      ({ rtrees := some mTrained }, false, cloudMismatchMsg)) ∧
    feat0.cloud = feat0.cloud ∧
    evaluateC env0 { rtrees := some mTrained } [feat0] (some sub01) true =
      evaluateC env0 { rtrees := some mTrained } [featWrongCloud] (some sub01)
        true :=
  ⟨cloud_check_amended.1 env0 trainerOk { rtrees := some mTrained } params0
      feat0 [featWrongCloud] none [0, 1] rfl rfl
      (by
        intro f hf hcl
        rcases List.mem_cons.mp hf with rfl | hf'
        · exact ⟨.dimWrap cloud0 .dimX, rfl, rfl⟩
        · rcases List.mem_cons.mp hf' with rfl | hh
          · exact absurd hcl (by decide)
          · simp at hh)
      ⟨featWrongCloud,
        List.mem_cons_of_mem feat0 (List.mem_cons_self featWrongCloud []),
        by decide⟩,
   cloud_check_amended.2.1 env0 trainerOk { rtrees := none } params0 feat0 []
      (some sub01) true { rtrees := some mTrained } "" rfl feat0
      (List.mem_cons_self feat0 []),
   cloud_check_amended.2.2 env0 { rtrees := some mTrained } [feat0]
      [featWrongCloud] (some sub01) true
      (List.Forall₂.cons ⟨rfl, rfl⟩ List.Forall₂.nil)⟩

/-- C7: under the external library's round-trip contract (loading saved
bytes restores the model), a classifier trained successfully, saved with
toFile and loaded by fromFile into a fresh classifier evaluates exactly
as the original does on any features and test subset, so the
AccuracyMetrics (sampleCount, goodGuess, ratio) coincide. -/
theorem save_load_roundtrip {β : Type} (save : RTModel → β)
    (load : β → RTModel) (hinv : ∀ m, load (save m) = m)
    (env : Env) (trainer : Trainer) (c : Classifier)
    (params : RandomTreesParams) (features : List Feature)
    (subset : Option RefCloud) (aok : Bool) (cOut : Classifier) (msg : String)
    (htrain : trainC env trainer c params features subset aok = (cOut, true, msg))
    (b : β) (hsave : toFileC cOut save = some b)
    (env2 : Env) (fs2 : List Feature) (ts2 : Option RefCloud) (aok2 : Bool) :
    evaluateC env2 (fromFileC load b).1 fs2 ts2 aok2 =
      evaluateC env2 cOut fs2 ts2 aok2 := by
  obtain ⟨m, hc, htr⟩ := trainC_success_state env trainer c params features
    subset aok cOut msg htrain
  subst hc
  simp only [toFileC] at hsave
  injection hsave with hb
  subst hb
  simp [fromFileC, hinv m]

/-- C7 witness: the round trip with identity serialization on the
concrete successful training scenario. -/
theorem save_load_roundtrip_witness :
    evaluateC env0 (fromFileC (fun m => m) mTrained).1 [feat0] (some sub01)
      true =
    evaluateC env0 { rtrees := some mTrained } [feat0] (some sub01) true :=
  save_load_roundtrip (fun m => m) (fun m => m) (fun _ => rfl) env0 trainerOk
    { rtrees := none } params0 [feat0] (some sub01) true
    { rtrees := some mTrained } "" rfl mTrained rfl env0 [feat0] (some sub01)
    true

/-- C8: fromFile on bytes that parse into an untrained model still
returns success (only a warning is emitted), while isValid() on the
resulting classifier reports false: load success and trained state are
independent. -/
theorem fromFile_untrained_ok {β : Type} (load : β → RTModel) (b : β)
    (h : (load b).trained = false) :
    (fromFileC load b).2 = true ∧
    Classifier.isValid (fromFileC load b).1 = false := by
  refine ⟨rfl, ?_⟩
  simp [fromFileC, Classifier.isValid, h]

/-- C8 witness: loading the fresh untrained model. -/
theorem fromFile_untrained_ok_witness :
    (fromFileC (fun m => m) freshModel).2 = true ∧
    Classifier.isValid (fromFileC (fun m => m) freshModel).1 = false :=
  fromFile_untrained_ok (fun m => m) freshModel rfl

/-- C9: evaluate never mutates the trained model (the classifier state
after the call is the incoming one in every branch; the C++ method never
assigns m_rtrees), and two evaluate calls on the same classifier with
identical features and test subset return identical AccuracyMetrics. -/
theorem evaluate_pure (env : Env) (c : Classifier) (fs fs2 : List Feature)
    (ts ts2 : Option RefCloud) (aok : Bool)
    (hf : fs2 = fs) (ht : ts2 = ts) :
    (evaluateC env c fs ts aok).1 = c ∧
    (evaluateC env c fs ts aok).2.1 = (evaluateC env c fs2 ts2 aok).2.1 := by
  subst hf
  subst ht
  refine ⟨?_, rfl⟩
  unfold evaluateC
  repeat' split
  all_goals rfl

/-- C9 witness: the concrete evaluation leaves the classifier state
untouched. -/
theorem evaluate_pure_witness :
    (evaluateC env0 { rtrees := some mTrained } [feat0] (some sub01)
      true).1 = { rtrees := some mTrained } :=
  (evaluate_pure env0 { rtrees := some mTrained } [feat0] [feat0] (some sub01)
    (some sub01) true rfl rfl).1

/-- C10: every evaluate call that returns failure returns the metrics
exactly as zeroed at the top of the method: sampleCount = 0,
goodGuess = 0, ratio = 0. -/
theorem evaluate_failure_zero_metrics (env : Env) (c : Classifier)
    (fs : List Feature) (ts : Option RefCloud) (aok : Bool)
    (cOut : Classifier) (m : AccuracyMetrics) (msg : String)
    (h : evaluateC env c fs ts aok = (cOut, m, false, msg)) :
    m = zeroMetrics := by
  unfold evaluateC at h
  repeat' split at h
  all_goals (
    injection h with hA h
    injection h with hM h
    injection h with hB hC
    first
    | exact Bool.noConfusion hB
    | exact hM.symm)

/-- C10 witness: the untrained-classifier failure returns the zeroed
metrics. -/
theorem evaluate_failure_zero_metrics_witness :
    (evaluateC env0 { rtrees := none } [feat0] (some sub01) true).2.1 =
      zeroMetrics :=
  evaluate_failure_zero_metrics env0 { rtrees := none } [feat0] (some sub01)
    true
    ((evaluateC env0 { rtrees := none } [feat0] (some sub01) true).1)
    ((evaluateC env0 { rtrees := none } [feat0] (some sub01) true).2.1)
    ((evaluateC env0 { rtrees := none } [feat0] (some sub01) true).2.2.2)
    rfl

end Masc
